import Mathlib

/-!
Verification development for the ragui query-answering pipeline.

The Python sources are shallowly embedded: Python text is modelled as
`List Char` (so slicing and length coincide with Python code-point
semantics), Python exceptions as the `Except` monad (an `.error` value is
a raised exception propagating to the caller), and each external call
(LLM completion, vector store query, database connection) as an
oracle-function argument of the surrounding definition, so that every
possible success or failure behaviour of the external world is a concrete
instantiation of the oracle.
-/

/-- Characters of a Python string; Python text is modelled as a list of
unicode code points so that slicing and length match Python semantics. -/
abbrev Str := List Char

/-- The payload of a raised Python exception. -/
abbrev Err := String

/-- Python falsiness of s.strip(): a string is blank when every character
is whitespace (this includes the empty string). -/
def isBlank (s : Str) : Bool := s.all (fun c => c.isWhitespace)

/-- Decimal rendering of a natural number, as Python str(). -/
def natStr (n : Nat) : Str := (toString n).toList

/-- Decimal rendering of an integer, as Python str(). -/
def intStr (n : Int) : Str := (toString n).toList

/-- Python startswith on code-point lists. -/
def strStartsWith (pre s : Str) : Bool := decide (s.take pre.length = pre)

/-- Python endswith on code-point lists. -/
def strEndsWith (suf s : Str) : Bool := decide (s.drop (s.length - suf.length) = suf)

/-- Python filepath.split(sep)[-1]: the component after the last slash. -/
def lastComponent (s : Str) : Str := (s.splitOn '/').getLastD []

/-- Python str.replace: replace every occurrence of pat (left to right,
non-overlapping); an empty pattern leaves the string unchanged here since
every call site guards with startswith on a non-empty literal. -/
def replaceAll (pat repl : Str) : Str → Str
  | [] => []
  | c :: rest =>
    if h : pat ≠ [] ∧ strStartsWith pat (c :: rest) then
      repl ++ replaceAll pat repl ((c :: rest).drop pat.length)
    else
      c :: replaceAll pat repl rest
termination_by s => s.length
decreasing_by
  · simp only [List.length_drop]
    have hp : 0 < pat.length := List.length_pos.mpr h.1
    simp only [List.length_cons]
    omega
  · simp

/-- The fixed no-results answer shared by postgres_rag.py and rag_BASF.py
(returned both by the empty-documents branch of the postgres generator and
by the zero-hit short circuit of the orchestrators). -/
def noRelevantInfoMsg : String :=
  "I couldn\x27t find any relevant information. Please try rephrasing your query or broadening the search."

namespace RagRetrieval

/-- A value of the Python filter_params dict: a literal string, a literal
integer, or a dict of range operators (operator name to integer bound),
exactly the shapes rag_retrieval.py distinguishes with isinstance. -/
inductive FVal where
  | s : String → FVal
  | i : Int → FVal
  | d : List (String × Int) → FVal
deriving DecidableEq

/-- The value inside one where-clause condition handed to the store:
either the raw filter value passed through unchanged, or a range operator
already mapped to the Chroma comparison operator name. -/
inductive CVal where
  | s : String → CVal
  | i : Int → CVal
  | d : List (String × Int) → CVal
  | mapped : String → Int → CVal
deriving DecidableEq

/-- One condition dict, Python \x7bkey: value\x7d. -/
abbrev Cond := String × CVal

/-- The where clause sent to collection.query: a single bare condition or
a $and of several conditions. -/
inductive WhereExpr where
  | single : Cond → WhereExpr
  | and : List Cond → WhereExpr
deriving DecidableEq

/-- The condition-building loop of retrieve_movies (rag_retrieval.py,
lines 57-72): a dict value is translated to Chroma range operators only
when the key is release_year (unknown operator names are dropped); every
other value is appended as a bare condition. -/
def buildConditions (filter_params : List (String × FVal)) : List Cond :=
  filter_params.foldl (fun conditions kv =>
    match kv with
    | (key, FVal.d ops) =>
      if key = "release_year" then
        conditions ++ ops.filterMap (fun ov =>
          if ov.1 = "gt" then some (key, CVal.mapped "$gt" ov.2)
          else if ov.1 = "lt" then some (key, CVal.mapped "$lt" ov.2)
          else if ov.1 = "gte" then some (key, CVal.mapped "$gte" ov.2)
          else if ov.1 = "lte" then some (key, CVal.mapped "$lte" ov.2)
          else none)
      else conditions ++ [(key, CVal.d ops)]
    | (key, FVal.s v) => conditions ++ [(key, CVal.s v)]
    | (key, FVal.i v) => conditions ++ [(key, CVal.i v)]) []

/-- retrieve_movies lines 56-78: no clause for an empty/absent dict, a
$and when more than one condition exists, the bare condition when exactly
one exists, and no clause when the loop produced none. -/
def buildWhereClause (filter_params : List (String × FVal)) : Option WhereExpr :=
  if filter_params.isEmpty then none
  else
    let conditions := buildConditions filter_params
    if 1 < conditions.length then some (.and conditions)
    else
      match conditions with
      | [c] => some (.single c)
      | _ => none

/-- The metadata dict of one netflix_movies hit (fields read by
retrieve_movies). -/
structure MovieMeta where
  title : String
  type : String
  release_year : Int
  rating : String
deriving DecidableEq

/-- One aligned row of the Chroma query result (ids[0][i], metadatas[0][i],
documents[0][i], distances[0][i]); distances are modelled as integers. -/
structure ChromaHit where
  id : String
  meta : MovieMeta
  document : Str
  distance : Int
deriving DecidableEq

/-- The dict appended to the movies list for each hit. -/
structure Movie where
  id : String
  title : String
  type : String
  release_year : Int
  rating : String
  description : Str
  similarity_score : Int
deriving DecidableEq

/-- Formatting of one hit into a movie dict (rag_retrieval.py 103-112). -/
def formatMovie (h : ChromaHit) : Movie :=
  { id := h.id, title := h.meta.title, type := h.meta.type,
    release_year := h.meta.release_year, rating := h.meta.rating,
    description := h.document, similarity_score := h.distance }

/-- The try/except around collection.query (rag_retrieval.py 81-99): on a
failure of the filtered query, one retry without the filter whose outcome
(success or exception) is returned as is; a failure of an unfiltered query
re-raises. The second component logs the where argument of every store
call actually issued, in order. -/
def queryWithRetry (store : Option WhereExpr → Except Err (List ChromaHit))
    (w : Option WhereExpr) :
    Except Err (List ChromaHit) × List (Option WhereExpr) :=
  match store w with
  | .ok r => (.ok r, [w])
  | .error e =>
    match w with
    | some _ => (store none, [w, none])
    | none => (.error e, [w])

/-- retrieve_movies: builds the where clause, queries the store (with the
single unfiltered retry), and formats the hits; the embedding oracle
absorbs the query embedding and top_n. -/
def retrieve_movies (store : Option WhereExpr → Except Err (List ChromaHit))
    (filter_params : List (String × FVal)) :
    Except Err (List Movie) × List (Option WhereExpr) :=
  let w := buildWhereClause filter_params
  let res := queryWithRetry store w
  (res.1.map (List.map formatMovie), res.2)

end RagRetrieval

namespace RagGenerator

/-- One element of the sources array of the structured output schema. -/
structure SourceRef where
  chunk_id : String
  source : String
deriving DecidableEq

/-- The structured JSON answer (rag_generator.py schema): answer text and
a list of chunk_id/source citations. -/
structure StructuredAnswer where
  answer : String
  sources : List SourceRef
deriving DecidableEq

/-- Failure modes of the structured LLM call boundary, covering the three
except clauses of generate_response_from_context: RateLimitError, APIError,
and any other exception (including a json.loads failure on malformed
output). -/
inductive GenErr where
  | rateLimited
  | api : String → GenErr
  | other : String → GenErr
deriving DecidableEq

/-- A chat message: role and content. -/
abbrev ChatMsg := String × String

/-- The fixed system instruction of generate_response_from_context. -/
def genSystemMessage : String :=
  "You are an expert assistant. Answer only based on the provided context chunks. " ++
  "Return a JSON object with \x27answer\x27 (concise response) and \x27sources\x27, an array of objects each containing " ++
  "\x27chunk_id\x27 (identifier of the chunk) and \x27source\x27 (filepath or document ID)."

/-- The user prompt of generate_response_from_context (the f-string at
lines 96-107), with the context block spliced in. -/
def genUserPrompt (query : String) (context_block : Str) : String :=
  "\nUser Query: \"" ++ query ++ "\"\n\nContext Chunks:\n" ++ String.mk context_block ++
  "\n\nReturn JSON with two keys:\n1. answer: Your direct response.\n" ++
  "2. sources: [ \x7bchunk_id: \"id\", source: \"path\"\x7d, ... ]\n\n" ++
  "If no answer is found, set \x27answer\x27 to a note indicating none and \x27sources\x27 to [].\n"

/-- The message list handed to client.responses.create: system message,
then the chat history, then the user prompt. -/
def genMessages (query : String) (context_block : Str) (chat_history : List ChatMsg) :
    List ChatMsg :=
  [("system", genSystemMessage)] ++ chat_history ++ [("user", genUserPrompt query context_block)]

/-- generate_response_from_context (rag_generator.py 66-144). The llm
oracle stands for the schema-constrained completion call followed by the
JSON parse; openai_available for OPENAI_AVAILABLE and a non-None client.
The second component of the result counts LLM network calls performed. -/
def generate_response_from_context (openai_available : Bool)
    (llm : List ChatMsg → Except GenErr StructuredAnswer)
    (query : String) (context_block : Str) (chat_history : List ChatMsg) :
    StructuredAnswer × Nat :=
  if openai_available = false then
    ({ answer := "Error: OpenAI client unavailable.", sources := [] }, 0)
  else if isBlank context_block then
    ({ answer := "No context available to answer the query.", sources := [] }, 0)
  else
    match llm (genMessages query context_block chat_history) with
    | .ok structured => (structured, 1)
    | .error .rateLimited => ({ answer := "Error: Rate limit exceeded.", sources := [] }, 1)
    | .error (.api m) => ({ answer := "API Error: " ++ m, sources := [] }, 1)
    | .error (.other m) => ({ answer := "Unexpected error: " ++ m, sources := [] }, 1)

end RagGenerator

namespace RagRetriever

/-- The content column of a search_vdb hit: a Python string or a value of
another type (the isinstance(content, str) check of line 113). -/
inductive HitContent where
  | str : Str → HitContent
  | nonStr : HitContent
deriving DecidableEq

/-- One hit returned by search_vdb, in the expected column order
[id, semantic_score, bm25_score, fused_score, filepath, markdown_path,
content]; fused_score is an optional integer, none standing for a value
the :.4f format specifier rejects. A hit of any other shape or length is
`malformed`. -/
inductive VdbHit where
  | well : String → Int → Int → Option Int → Str → Str → HitContent → VdbHit
  | malformed : VdbHit
deriving DecidableEq

/-- The :.4f rendering of a fused score, specialised to the integer model
of scores (four zero decimals). -/
def formatScore4 (q : Int) : Str := intStr q ++ ".0000".toList

/-- Python f"\x7bfused_score:.4f\x7d": raises on a non-numeric score. -/
def formatFused : Option Int → Except Err Str
  | some q => .ok (formatScore4 q)
  | none => .error "unsupported format string passed to NoneType.__format__"

/-- The context-block entry for one valid chunk (rag_retriever.py
115-117). -/
def chunkEntry (i : Nat) (id : String) (scoreTxt : Str) (filepath content : Str) : Str :=
  "--- Chunk ".toList ++ natStr (i + 1) ++ " (ID: ".toList ++ id.toList ++
  ", Score: ".toList ++ scoreTxt ++ ") ---\n".toList ++
  "Source Document: ".toList ++ filepath ++ "\n".toList ++
  "Content:\n".toList ++ content ++ "\n\n".toList

/-- The source-map insertion of lines 120-121: record the
filepath to markdown_path mapping at its first occurrence only. -/
def insertSrc (acc : List (Str × Str)) (k v : Str) : List (Str × Str) :=
  if k ∈ acc.map Prod.fst then acc else acc ++ [(k, v)]

/-- The chunk-processing loop of retrieve_and_format_context (lines
103-128), threading the context block and source map accumulators; a
raised exception (from the :.4f format) aborts the whole loop. -/
def processGo : List (Nat × VdbHit) → Str → List (Str × Str) →
    Except Err (Str × List (Str × Str))
  | [], cb, srcs => .ok (cb, srcs)
  | (_, .malformed) :: rest, cb, srcs => processGo rest cb srcs
  | (i, .well id _sem _bm fused fp md content) :: rest, cb, srcs =>
    match content with
    | .nonStr => processGo rest cb srcs
    | .str c =>
      if isBlank c then processGo rest cb srcs
      else
        match formatFused fused with
        | .error e => .error e
        | .ok scoreTxt =>
          processGo rest (cb ++ chunkEntry i id scoreTxt fp c) (insertSrc srcs fp md)

/-- Processing of a full search result list, hits enumerated from 0. -/
def processHits (hits : List VdbHit) : Except Err (Str × List (Str × Str)) :=
  processGo hits.enum [] []

/-- Specification-side description of the excerpt a hit contributes to the
context block: empty unless the hit is well-formed with a numeric score
and non-blank string content. -/
def hitExcerpt (i : Nat) : VdbHit → Str
  | .well id _sem _bm (some q) fp _md (.str c) =>
    if isBlank c then [] else chunkEntry i id (formatScore4 q) fp c
  | _ => []

/-- Specification-side description of the source-map pair a hit
contributes: none unless the hit is well-formed with a numeric score and
non-blank string content. -/
def hitSrcPair : VdbHit → Option (Str × Str)
  | .well _id _sem _bm (some _) fp md (.str c) =>
    if isBlank c then none else some (fp, md)
  | _ => none

/-- retrieve_and_format_context (rag_retriever.py 51-151). available
stands for INIT_DB_AVAILABLE and SEARCH_AVAILABLE; initDb yields the
(session, engine) pair, the session modelled by its is_active flag and
the engine by its truthiness; search stands for search_vdb. The Bool of
the result records whether session.close() was called in the finally
block (session present and active). Any exception inside the try body is
caught by the outer except, which discards the partial context block and
source map and returns the empty pair. -/
def retrieve_and_format_context (available : Bool)
    (initDb : Except Err (Option Bool × Bool))
    (search : Except Err (List VdbHit)) :
    (Str × List (Str × Str)) × Bool :=
  if available = false then (([], []), false)
  else
    match initDb with
    | .error _ => (([], []), false)
    | .ok (session, engine) =>
      let closed := session.getD false
      if engine = false then (([], []), closed)
      else
        let results := match search with | .ok rs => rs | .error _ => []
        match processHits results with
        | .ok out => ((out.1, out.2), closed)
        | .error _ => (([], []), closed)

end RagRetriever

namespace PostgresRag

/-- One entry of the store_clean_test.json mapping file: the keys read by
the code, each possibly absent. -/
structure StoreEntry where
  file_path : Option Str
  real_path : Option Str
deriving DecidableEq

/-- One search_vdb result as classified by retrieve_documents
(postgres_rag.py 96-117): a tuple in the expected column order (a missing
ninth column modelled by a none score), a dict (whose .get defaults are
applied at the use site), or an unrecognized shape that is skipped. -/
inductive PgResult where
  | tup : String → String → String → String → List (String × String) →
      Str → Str → String → Option Int → PgResult
  | dict : Option String → Option String → Option String → Option String →
      List (String × String) → Option Str → Option Str → Option Int → PgResult
  | other : PgResult
deriving DecidableEq

/-- The document dict appended by retrieve_documents for each usable
result (postgres_rag.py 130-141). -/
structure PgDoc where
  id : Option String
  chunk_id : Option String
  description : Option String
  category : Option String
  metadata : List (String × String)
  filepath : Str
  local_path : Str
  real_path : Str
  content : Str
  similarity_score : Option Int
deriving DecidableEq

/-- The stored-path prefix rewritten to a local path. -/
def ffrPre : Str := "/data/projects/filefindr/".toList

/-- The local replacement prefix. -/
def batchPre : Str := "/shared_folders/team_1/document_batch/".toList

/-- Path resolution of retrieve_documents (postgres_rag.py 119-128):
prefix rewrite to a local path, then lookup of the final path component in
the store mapping, falling back to the local path when the key or its
real_path field is missing. -/
def mapPaths (store_data : List (Str × StoreEntry)) (filepath : Str) : Str × Str :=
  let local_path :=
    if strStartsWith ffrPre filepath then replaceAll ffrPre batchPre filepath
    else filepath
  let file_key := if filepath.isEmpty then "Unknown".toList else lastComponent filepath
  let real_path :=
    match store_data.lookup file_key with
    | some entry => entry.real_path.getD local_path
    | none => local_path
  (local_path, real_path)

/-- Normalization of one search result into a document dict; an
unrecognized shape yields none and is skipped by the caller. -/
def normalizeResult (store_data : List (Str × StoreEntry)) : PgResult → Option PgDoc
  | .tup id chunkid description category md filepath markdown _embedding score =>
    let paths := mapPaths store_data filepath
    some { id := some id, chunk_id := some chunkid, description := some description,
           category := some category, metadata := md, filepath := filepath,
           local_path := paths.1, real_path := paths.2, content := markdown,
           similarity_score := score }
  | .dict id chunkid description category md filepath markdown score =>
    let fp := filepath.getD []
    let paths := mapPaths store_data fp
    some { id := id, chunk_id := chunkid, description := description,
           category := category, metadata := md, filepath := fp,
           local_path := paths.1, real_path := paths.2, content := markdown.getD [],
           similarity_score := score }
  | .other => none

/-- retrieve_documents (postgres_rag.py 74-143): one search_vdb call, then
normalization of every recognizable result; a search exception propagates
(there is no try/except in this function). -/
def retrieve_documents (search : String → Nat → Except Err (List PgResult))
    (store_data : List (Str × StoreEntry)) (query : String) (top_n : Nat) :
    Except Err (List PgDoc) :=
  (search query top_n).map (fun results => results.filterMap (normalizeResult store_data))

/-- The rephrase user prompt (postgres_rag.py 65). -/
def pgRephrasePrompt (relevant_history user_question : String) : String :=
  "Conversation history:\n" ++ relevant_history ++
  "\n\nRephrase this technical question so that it fully references any missing subjects: \x27" ++
  user_question ++ "\x27"

/-- rephrase_question (postgres_rag.py 54-70): one chat completion whose
trimmed text is returned; an exception from the call propagates. -/
def rephrase_question (llm : String → Except Err String)
    (user_question : String) (chat_history : List String) : Except Err String :=
  let relevant_history := String.intercalate "\n" chat_history
  (llm (pgRephrasePrompt relevant_history user_question)).map (fun r => r.trim)

/-- The per-chunk content excerpt of the postgres generator
(postgres_rag.py 160): the first 500 code points, with an ellipsis marker
exactly when the content is longer than 500. -/
def pgContentExcerpt (content : Str) : Str :=
  content.take 500 ++ (if 500 < content.length then "...".toList else [])

/-- One chunk entry of the generator prompt block (postgres_rag.py
157-163), the relevance-score line present exactly when the score is not
None. -/
def pgChunkEntry (i : Nat) (doc : PgDoc) : Str :=
  "Chunk ".toList ++ natStr i ++ ":\n".toList ++
  "Source: ".toList ++ doc.filepath ++ "\n".toList ++
  "Content: ".toList ++ pgContentExcerpt doc.content ++ "\n".toList ++
  (match doc.similarity_score with
   | some s => "Relevance Score: ".toList ++ intStr s ++ "\n".toList
   | none => []) ++
  "\n".toList

/-- The doc_block accumulation loop (for i, doc in enumerate(documents, 1)
with doc_block += entry). -/
def pg_doc_block (documents : List PgDoc) : Str :=
  documents.enum.foldl (fun acc p => acc ++ pgChunkEntry (p.1 + 1) p.2) []

/-- The generator user prompt (postgres_rag.py 171-178). -/
def pgPrompt (query : String) (doc_block : Str) : String :=
  "\nUser Query: \"" ++ query ++ "\"\n\n" ++
  "I have retrieved the following document chunks from our technical documentation collection:\n" ++
  String.mk doc_block ++
  "\n\nBased on the above documents, please provide a concise and accurate technical response that references the source files.\n"

/-- generate_document_response (postgres_rag.py 147-190): the fixed
no-results answer on an empty document list (before any LLM call), else
one chat completion whose trimmed text is returned; a completion exception
propagates. The Nat counts LLM network calls performed. -/
def generate_document_response (llm : String → Except Err String)
    (query : String) (documents : List PgDoc) : Except Err (String × Nat) :=
  if documents.isEmpty then .ok (noRelevantInfoMsg, 0)
  else (llm (pgPrompt query (pg_doc_block documents))).map (fun r => (r.trim, 1))

/-- The first-occurrence-wins insertion of the unique_sources loop
(postgres_rag.py 226-227). -/
def insertSource (acc : List (Str × Str)) (k v : Str) : List (Str × Str) :=
  if k ∈ acc.map Prod.fst then acc else acc ++ [(k, v)]

/-- Specification-side helper: the keys of ks not already seen, kept in
first-occurrence order. -/
def firstOccNew : List Str → List Str → List Str
  | [], _ => []
  | k :: rest, seen =>
    if k ∈ seen then firstOccNew rest seen else k :: firstOccNew rest (seen ++ [k])

/-- Specification-side description of the spec sentence: the distinct
keys of ks in order of first occurrence. -/
def firstOccDedup (ks : List Str) : List Str := firstOccNew ks []

/-- Python dict lookup on the insertion-ordered association list. -/
def assocFind : List (Str × Str) → Str → Option Str
  | [], _ => none
  | kv :: rest, k => if kv.1 = k then some kv.2 else assocFind rest k

/-- The unique_sources loop over documents in rank order (postgres_rag.py
220-227), threading the accumulated mapping. -/
def sourceFold (acc : List (Str × Str)) : List PgDoc → List (Str × Str)
  | [] => acc
  | d :: ds => sourceFold (insertSource acc d.filepath d.real_path) ds

/-- The source map built by the orchestrator: source file path to resolved
real path, first occurrence wins, insertion ordered. -/
def unique_sources (documents : List PgDoc) : List (Str × Str) :=
  sourceFold [] documents

/-- postgres_rag (postgres_rag.py 194-229): connect, rephrase, retrieve,
short-circuit on zero documents, generate, and pair the answer with the
unique-sources map. Every step runs without a surrounding try/except, so
an exception from any oracle propagates to the caller. -/
def postgres_rag (initDb : Except Err Unit)
    (rephraseLLM : String → Except Err String)
    (search : String → Nat → Except Err (List PgResult))
    (genLLM : String → Except Err String)
    (store_data : List (Str × StoreEntry))
    (user_request : String) (chat_history : List String) (top_n : Nat) :
    Except Err (String × List (Str × Str)) := do
  let _ ← initDb
  let rephrased ← rephrase_question rephraseLLM user_request chat_history
  let matching_documents ← retrieve_documents search store_data rephrased top_n
  if matching_documents.isEmpty then
    return (noRelevantInfoMsg, [])
  else do
    let response ← generate_document_response genLLM rephrased matching_documents
    return (response.1, unique_sources matching_documents)

end PostgresRag

namespace RagBASF

/-- One entry of the BASF store mapping file, keys possibly absent. -/
structure BStoreEntry where
  file_path : Option String
  real_path : Option String
deriving DecidableEq

/-- One aligned row of the Chroma markdown_documents query result; the
source_file metadata field may be missing (its .get default "Unknown" is
applied at the use site). -/
structure BHit where
  id : String
  source_file : Option String
  document : Str
  distance : Int
deriving DecidableEq

/-- The document dict built by retrieve_documents in rag_BASF.py
(lines 113-119). -/
structure BDoc where
  id : String
  source_file : String
  real_path : Option String
  chunk_text : Str
  similarity_score : Int
deriving DecidableEq

/-- The where clause of rag_BASF.retrieve_documents: every filter entry is
passed through as a bare condition dict (no range-operator mapping at
all). -/
inductive BWhere where
  | single : String × RagRetrieval.FVal → BWhere
  | and : List (String × RagRetrieval.FVal) → BWhere
deriving DecidableEq

/-- The condition building of rag_BASF.py 68-77: one raw condition per
entry, a bare condition when exactly one, a $and when several, nothing for
an empty dict. -/
def basf_build_where (filter_params : List (String × RagRetrieval.FVal)) : Option BWhere :=
  if filter_params.isEmpty then none
  else
    match filter_params with
    | [c] => some (.single c)
    | [] => none
    | cs => some (.and cs)

/-- The real-path scan of rag_BASF.py 105-111: the first store entry whose
file_path ends with the source_file name supplies the real path; no match
(or an Unknown source) leaves it None. -/
def basf_find_real_path (store_data : List BStoreEntry) (source_file : String) :
    Option String :=
  if source_file = "Unknown" then none
  else
    match store_data.find? (fun e =>
        match e.file_path with
        | some fp => strEndsWith source_file.toList fp.toList
        | none => false) with
    | some e => e.real_path
    | none => none

/-- retrieve_documents (rag_BASF.py 59-121): builds the where clause,
queries the collection with the single unfiltered retry of lines 79-96
(a retry failure, or an unfiltered failure, re-raises), then formats each
hit into a document dict with its resolved real path. -/
def retrieve_documents (storeQuery : Option BWhere → Except Err (List BHit))
    (store_data : List BStoreEntry) (filter_params : List (String × RagRetrieval.FVal)) :
    Except Err (List BDoc) :=
  let w := basf_build_where filter_params
  let res : Except Err (List BHit) :=
    match storeQuery w with
    | .ok r => .ok r
    | .error e =>
      match w with
      | some _ => storeQuery none
      | none => .error e
  res.map (fun hits => hits.map (fun h =>
    let sf := h.source_file.getD "Unknown"
    { id := h.id, source_file := sf,
      real_path := basf_find_real_path store_data sf,
      chunk_text := h.document, similarity_score := h.distance }))

/-- The rephrase user prompt (rag_BASF.py 44). -/
def basfRephrasePrompt (relevant_history user_question : String) : String :=
  "Conversation history:\n" ++ relevant_history ++
  "\n\nRephrase this technical question so that it fully references any missing subjects: \x27" ++
  user_question ++ "\x27"

/-- rephrase_question (rag_BASF.py 33-49): one chat completion whose
trimmed text is returned; an exception from the call propagates. -/
def rephrase_question (llm : String → Except Err String)
    (user_question : String) (chat_history : List String) : Except Err String :=
  let relevant_history := String.intercalate "\n" chat_history
  (llm (basfRephrasePrompt relevant_history user_question)).map (fun r => r.trim)

/-- The per-chunk excerpt of the BASF generator (rag_BASF.py 135): the
first 300 code points, with an ellipsis marker exactly when longer. -/
def basf_chunk_excerpt (c : Str) : Str :=
  c.take 300 ++ (if 300 < c.length then "...".toList else [])

/-- One chunk entry of the BASF generator prompt block (rag_BASF.py
132-136). -/
def basf_chunk_entry (i : Nat) (doc : BDoc) : Str :=
  natStr i ++ ". Source File: ".toList ++ doc.source_file.toList ++ "\n".toList ++
  "   Chunk Text: ".toList ++ basf_chunk_excerpt doc.chunk_text ++ "\n".toList ++
  "   Similarity Score: ".toList ++ intStr doc.similarity_score ++ "\n\n".toList

/-- The doc_block accumulation loop of the BASF generator. -/
def basf_doc_block (documents : List BDoc) : Str :=
  documents.enum.foldl (fun acc p => acc ++ basf_chunk_entry (p.1 + 1) p.2) []

/-- The BASF generator user prompt (rag_BASF.py 144-151). -/
def basf_prompt (query : String) (doc_block : Str) : String :=
  "\nUser Query: \"" ++ query ++ "\"\n\n" ++
  "I have retrieved the following document chunks from our BASF/chemical engineering collection:\n" ++
  String.mk doc_block ++
  "\n\nBased on the above documents, please provide a concise and accurate technical response that references the source files.\n"

/-- generate_document_response (rag_BASF.py 125-163): one chat completion
whose trimmed text is returned (note: no empty-documents short circuit in
this variant); a completion exception propagates. -/
def generate_document_response (llm : String → Except Err String)
    (query : String) (documents : List BDoc) : Except Err String :=
  (llm (basf_prompt query (basf_doc_block documents))).map (fun r => r.trim)

/-- The unique-sources loop of document_rag (rag_BASF.py 185-193). A doc
whose stored real_path is None raises an AttributeError at the
startswith call (None is not equal to the string "Not Available", so the
guard proceeds to call startswith on None), modelled as an error. -/
def basf_source_fold (acc : List (String × String)) :
    List BDoc → Except Err (List (String × String))
  | [] => .ok acc
  | d :: ds =>
    if d.source_file ∈ acc.map Prod.fst then basf_source_fold acc ds
    else
      match d.real_path with
      | none => .error "AttributeError: NoneType object has no attribute startswith"
      | some rp =>
        let rp2 :=
          if rp ≠ "Not Available" ∧ strStartsWith "/".toList rp.toList = false
          then "/" ++ rp else rp
        basf_source_fold (acc ++ [(d.source_file, rp2)]) ds

/-- The unique source files and their real paths collected by
document_rag. -/
def basf_unique_sources (documents : List BDoc) : Except Err (List (String × String)) :=
  basf_source_fold [] documents

/-- document_rag (rag_BASF.py 167-196): rephrase, retrieve, short-circuit
on zero documents, generate, collect unique sources. Every step runs
without a surrounding try/except, so an exception from any oracle
propagates to the caller. -/
def document_rag (rephraseLLM : String → Except Err String)
    (storeQuery : Option BWhere → Except Err (List BHit))
    (genLLM : String → Except Err String)
    (store_data : List BStoreEntry)
    (filters : List (String × RagRetrieval.FVal))
    (user_request : String) (chat_history : List String) :
    Except Err (String × List (String × String)) := do
  let rephrased ← rephrase_question rephraseLLM user_request chat_history
  let matching_documents ← retrieve_documents storeQuery store_data filters
  if matching_documents.isEmpty then
    return (noRelevantInfoMsg, [])
  else do
    let response ← generate_document_response genLLM rephrased matching_documents
    let srcs ← basf_unique_sources matching_documents
    return (response, srcs)

end RagBASF

/-! Concrete sample data used by counterexamples and witnesses. -/

/-- A well-formed tuple-shaped search_vdb result with non-empty content. -/
def sampleTup : PostgresRag.PgResult :=
  .tup "1" "c1" "d" "cat" [] "/p/f.md".toList "content text".toList "emb" (some 1)

/-- A tuple-shaped search_vdb result whose content column is the empty
string. -/
def emptyContentTup : PostgresRag.PgResult :=
  .tup "1" "c1" "d" "cat" [] "/p/f.md".toList [] "emb" (some 1)

/-- The document dict retrieve_documents builds from emptyContentTup with
an empty store mapping: paths pass through unchanged and the content is
empty. -/
def pgEmptyDoc : PostgresRag.PgDoc :=
  { id := some "1", chunk_id := some "c1", description := some "d",
    category := some "cat", metadata := [], filepath := "/p/f.md".toList,
    local_path := "/p/f.md".toList, real_path := "/p/f.md".toList,
    content := [], similarity_score := some 1 }

/-- A well-formed retriever hit with non-blank content and numeric score. -/
def goodHitA : RagRetriever.VdbHit :=
  .well "a" 1 1 (some 3) "/docs/one.pdf".toList "/md/one.md".toList
    (.str "alpha content".toList)

/-- Three well-formed retriever hits with ids a, b, c. -/
def hitsABC : List RagRetriever.VdbHit :=
  [ goodHitA,
    .well "b" 1 1 (some 2) "/docs/two.pdf".toList "/md/two.md".toList
      (.str "beta content".toList),
    .well "c" 1 1 (some 1) "/docs/three.pdf".toList "/md/three.md".toList
      (.str "gamma content".toList) ]

/-- The context block retrieve_and_format_context builds from hitsABC. -/
def cbABC : Str :=
  match RagRetriever.processHits hitsABC with
  | .ok p => p.1
  | .error _ => []

/-- The id column of a retriever hit (empty for a malformed hit). -/
def hitId : RagRetriever.VdbHit → String
  | .well id _ _ _ _ _ _ => id
  | .malformed => ""

/-- A well-formed retriever hit whose fused score the :.4f format
specifier rejects. -/
def badFusedHit : RagRetriever.VdbHit :=
  .well "x" 1 1 none "/docs/x.pdf".toList "/md/x.md".toList
    (.str "some text".toList)

/-- A mixed hit list: a good hit, a blank-content hit, a malformed hit,
and a second good hit repeating the first one's source path. -/
def demoHits : List RagRetriever.VdbHit :=
  [ goodHitA,
    .well "blank" 1 1 (some 9) "/docs/blank.pdf".toList "/md/blank.md".toList
      (.str "  \n".toList),
    .malformed,
    .well "a2" 1 1 (some 2) "/docs/one.pdf".toList "/md/other.md".toList
      (.str "more alpha".toList) ]

/-- The successful processing outcome on demoHits. -/
def demoOut : Str × List (Str × Str) :=
  match RagRetriever.processHits demoHits with
  | .ok p => p
  | .error _ => ([], [])

/-- The bare where clause built from the single filter entry rating=PG. -/
def wPG : RagRetrieval.WhereExpr := .single ("rating", .s "PG")

/-- A store oracle whose filtered and unfiltered queries both raise. -/
def storeBothFail : Option RagRetrieval.WhereExpr → Except Err (List RagRetrieval.ChromaHit) :=
  fun _ => .error "db down"

/-- A store oracle that raises on any filtered query and succeeds
unfiltered. -/
def storeRetryOk : Option RagRetrieval.WhereExpr → Except Err (List RagRetrieval.ChromaHit) :=
  fun w => match w with
  | some _ => .error "bad filter"
  | none => .ok []

/-- A BASF collection hit whose source_file metadata is present. -/
def sampleBHit : RagBASF.BHit :=
  { id := "h1", source_file := some "f.md", document := "text".toList, distance := 1 }

/-- A BASF store mapping whose single entry matches sampleBHit's source
file and carries a real path without a leading slash. -/
def sampleBStore : List RagBASF.BStoreEntry :=
  [{ file_path := some "/x/f.md", real_path := some "shared/f.md" }]

/-! Helper lemmas. -/

/-- An accumulate-by-append fold is the flattened map. -/
theorem foldl_append_flatten {α : Type} (f : α → Str) :
    ∀ (l : List α) (init : Str),
      l.foldl (fun acc x => acc ++ f x) init = init ++ (l.map f).flatten := by
  intro l
  induction l with
  | nil => intro init; simp
  | cons x xs ih => intro init; simp [ih, List.append_assoc]

/-- Keys after one first-occurrence insertion. -/
theorem insertSource_map_fst (acc : List (Str × Str)) (k v : Str) :
    (PostgresRag.insertSource acc k v).map Prod.fst =
      if k ∈ acc.map Prod.fst then acc.map Prod.fst else acc.map Prod.fst ++ [k] := by
  unfold PostgresRag.insertSource
  split
  · simp_all
  · simp_all

/-- Keys of the unique-sources fold: the starting keys followed by the new
source paths in first-occurrence order. -/
theorem sourceFold_map_fst (docs : List PostgresRag.PgDoc) :
    ∀ acc, (PostgresRag.sourceFold acc docs).map Prod.fst
      = acc.map Prod.fst
        ++ PostgresRag.firstOccNew (docs.map PostgresRag.PgDoc.filepath) (acc.map Prod.fst) := by
  induction docs with
  | nil => intro acc; simp [PostgresRag.sourceFold, PostgresRag.firstOccNew]
  | cons d ds ih =>
    intro acc
    show (PostgresRag.sourceFold (PostgresRag.insertSource acc d.filepath d.real_path) ds).map Prod.fst = _
    rw [ih]
    rw [insertSource_map_fst]
    by_cases h : d.filepath ∈ acc.map Prod.fst
    · simp only [if_pos h, List.map_cons, PostgresRag.firstOccNew, if_pos h]
    · simp only [if_neg h, List.map_cons, PostgresRag.firstOccNew, if_neg h]
      simp [List.append_assoc]

/-- The newly inserted keys are distinct and disjoint from the seen set. -/
theorem firstOccNew_nodup_disjoint :
    ∀ (ks seen : List Str),
      (PostgresRag.firstOccNew ks seen).Nodup
      ∧ ∀ x ∈ PostgresRag.firstOccNew ks seen, x ∉ seen := by
  intro ks
  induction ks with
  | nil => intro seen; simp [PostgresRag.firstOccNew]
  | cons k rest ih =>
    intro seen
    by_cases h : k ∈ seen
    · simpa [PostgresRag.firstOccNew, h] using ih seen
    · have hrest := ih (seen ++ [k])
      refine ⟨?_, ?_⟩
      · simp only [PostgresRag.firstOccNew, if_neg h, List.nodup_cons]
        refine ⟨?_, hrest.1⟩
        intro hk
        have := hrest.2 k hk
        simp at this
      · intro x hx
        simp only [PostgresRag.firstOccNew, if_neg h, List.mem_cons] at hx
        rcases hx with rfl | hx
        · exact h
        · intro hxs
          exact hrest.2 x hx (by simp [hxs])

/-- assocFind misses exactly the keys absent from the mapping. -/
theorem assocFind_eq_none (m : List (Str × Str)) (k : Str) :
    PostgresRag.assocFind m k = none ↔ k ∉ m.map Prod.fst := by
  induction m with
  | nil => simp [PostgresRag.assocFind]
  | cons kv rest ih =>
    by_cases h : kv.1 = k
    · simp [PostgresRag.assocFind, h]
    · simp [PostgresRag.assocFind, h, ih, Ne.symm h]

/-- assocFind over an appended mapping prefers the left part. -/
theorem assocFind_append (m1 m2 : List (Str × Str)) (k : Str) :
    PostgresRag.assocFind (m1 ++ m2) k
      = match PostgresRag.assocFind m1 k with
        | some v => some v
        | none => PostgresRag.assocFind m2 k := by
  induction m1 with
  | nil => simp [PostgresRag.assocFind]
  | cons kv rest ih =>
    by_cases h : kv.1 = k
    · simp [PostgresRag.assocFind, h]
    · simp [PostgresRag.assocFind, h, ih]

/-- assocFind after one first-occurrence insertion. -/
theorem insertSource_assocFind (acc : List (Str × Str)) (k v k2 : Str) :
    PostgresRag.assocFind (PostgresRag.insertSource acc k v) k2
      = match PostgresRag.assocFind acc k2 with
        | some v2 => some v2
        | none => if k = k2 then some v else none := by
  unfold PostgresRag.insertSource
  by_cases hk : k ∈ acc.map Prod.fst
  · rw [if_pos hk]
    cases hfind : PostgresRag.assocFind acc k2 with
    | some v2 => simp [hfind]
    | none =>
      simp only [hfind]
      have hk2 : k ≠ k2 := by
        intro rfl_eq
        exact ((assocFind_eq_none acc k2).mp hfind) (rfl_eq ▸ hk)
      simp [hk2]
  · rw [if_neg hk]
    rw [assocFind_append]
    cases hfind : PostgresRag.assocFind acc k2 with
    | some v2 => simp
    | none => simp [PostgresRag.assocFind]

/-- The value stored by the unique-sources fold is the real path of the
first document carrying the key. -/
theorem sourceFold_assocFind (docs : List PostgresRag.PgDoc) :
    ∀ (acc : List (Str × Str)) (k : Str),
      PostgresRag.assocFind (PostgresRag.sourceFold acc docs) k
        = match PostgresRag.assocFind acc k with
          | some v => some v
          | none =>
            (docs.find? (fun d => decide (d.filepath = k))).map PostgresRag.PgDoc.real_path := by
  induction docs with
  | nil =>
    intro acc k
    show PostgresRag.assocFind acc k = _
    cases PostgresRag.assocFind acc k <;> simp
  | cons d ds ih =>
    intro acc k
    show PostgresRag.assocFind
        (PostgresRag.sourceFold (PostgresRag.insertSource acc d.filepath d.real_path) ds) k = _
    rw [ih]
    rw [insertSource_assocFind]
    cases hfind : PostgresRag.assocFind acc k with
    | some v => simp
    | none =>
      simp only
      by_cases hfp : d.filepath = k
      · simp [hfp, List.find?_cons_of_pos]
      · rw [if_neg hfp]
        rw [List.find?_cons_of_neg]
        simp [hfp]

/-- The chunk-processing loop, when it finishes without raising, appends
exactly the excerpts of the valid hits and folds exactly their source
pairs. -/
theorem processGo_ok_spec :
    ∀ (l : List (Nat × RagRetriever.VdbHit)) (cb : Str) (srcs : List (Str × Str))
      (cb2 : Str) (srcs2 : List (Str × Str)),
      RagRetriever.processGo l cb srcs = .ok (cb2, srcs2) →
      cb2 = cb ++ (l.map (fun p => RagRetriever.hitExcerpt p.1 p.2)).flatten
      ∧ srcs2 = (l.filterMap (fun p => RagRetriever.hitSrcPair p.2)).foldl
          (fun acc q => RagRetriever.insertSrc acc q.1 q.2) srcs := by
  intro l
  induction l with
  | nil =>
    intro cb srcs cb2 srcs2 h
    injection h with h
    injection h with h1 h2
    subst h1; subst h2
    simp
  | cons p rest ih =>
    intro cb srcs cb2 srcs2 h
    obtain ⟨i, hit⟩ := p
    cases hit with
    | malformed =>
      have := ih cb srcs cb2 srcs2 h
      simpa [RagRetriever.hitExcerpt, RagRetriever.hitSrcPair] using this
    | well id sem bm fused fp md content =>
      cases content with
      | nonStr =>
        have := ih cb srcs cb2 srcs2 h
        simpa [RagRetriever.hitExcerpt, RagRetriever.hitSrcPair] using this
      | str c =>
        by_cases hb : isBlank c
        · rw [show RagRetriever.processGo ((i, RagRetriever.VdbHit.well id sem bm fused fp md (RagRetriever.HitContent.str c)) :: rest) cb srcs
              = RagRetriever.processGo rest cb srcs from by
            simp [RagRetriever.processGo, hb]] at h
          have := ih cb srcs cb2 srcs2 h
          cases fused <;>
            simpa [RagRetriever.hitExcerpt, RagRetriever.hitSrcPair, hb] using this
        · cases fused with
          | none =>
            exfalso
            simp [RagRetriever.processGo, hb, RagRetriever.formatFused] at h
          | some q =>
            rw [show RagRetriever.processGo ((i, RagRetriever.VdbHit.well id sem bm (some q) fp md (RagRetriever.HitContent.str c)) :: rest) cb srcs
                = RagRetriever.processGo rest
                    (cb ++ RagRetriever.chunkEntry i id (RagRetriever.formatScore4 q) fp c)
                    (RagRetriever.insertSrc srcs fp md) from by
              simp [RagRetriever.processGo, hb, RagRetriever.formatFused]] at h
            have := ih _ _ cb2 srcs2 h
            refine ⟨?_, ?_⟩
            · rw [this.1]
              simp [RagRetriever.hitExcerpt, hb, List.append_assoc]
            · rw [this.2]
              simp [RagRetriever.hitSrcPair, hb]

/-- Everything the source-map fold returns was already present or came
from the folded pair list. -/
theorem insertFold_mem :
    ∀ (pairs : List (Str × Str)) (acc : List (Str × Str)) (kv : Str × Str),
      kv ∈ pairs.foldl (fun a q => RagRetriever.insertSrc a q.1 q.2) acc →
      kv ∈ acc ∨ kv ∈ pairs := by
  intro pairs
  induction pairs with
  | nil => intro acc kv h; exact Or.inl h
  | cons p rest ih =>
    intro acc kv h
    have step := ih (RagRetriever.insertSrc acc p.1 p.2) kv h
    rcases step with hacc | hrest
    · unfold RagRetriever.insertSrc at hacc
      split at hacc
      · exact Or.inl hacc
      · rcases List.mem_append.mp hacc with h1 | h2
        · exact Or.inl h1
        · right
          simp at h2
          simp [h2]
    · exact Or.inr (List.mem_cons_of_mem _ hrest)

/-! Claim theorems. -/

/-- C1 (counterexample): contrary to the claim that answer_query never
propagates an exception, postgres_rag with a rephrase step that raises a
rate-limit error propagates that exact exception to its caller instead of
returning a (StructuredAnswer, SourceMap) pair. -/
theorem C1_counterexample :
    PostgresRag.postgres_rag (.ok ()) (fun _ => .error "RateLimitError")
      (fun _ _ => .ok []) (fun _ => .ok "") [] "q" [] 5
      = .error "RateLimitError" := rfl

/-- C1 (amended): both orchestrators propagate a failure of the database
connection, the rephrase step, the retrieval step, or the generation step
to their caller; the zero-record case returns the fixed no-results answer
with an empty source map. postgres_rag returns a well-formed pair whenever
every step succeeds; document_rag does so only when additionally every
retrieved record's real_path resolved against the store mapping — a
record left with a None real_path makes its unique-sources loop raise an
AttributeError even after rephrase, retrieval and generation all
succeeded. -/
theorem C1_amended :
    (∀ (e : Err) srch gen sd q h n,
      PostgresRag.postgres_rag (.ok ()) (fun _ => .error e) srch gen sd q h n = .error e)
    ∧ (∀ (e : Err) (r : String) gen sd q h n,
      PostgresRag.postgres_rag (.ok ()) (fun _ => .ok r) (fun _ _ => .error e) gen sd q h n
        = .error e)
    ∧ (∀ (e : Err) (r : String) q h n,
      PostgresRag.postgres_rag (.ok ()) (fun _ => .ok r) (fun _ _ => .ok [sampleTup])
        (fun _ => .error e) [] q h n = .error e)
    ∧ (∀ (r : String) gen sd q h n,
      PostgresRag.postgres_rag (.ok ()) (fun _ => .ok r) (fun _ _ => .ok []) gen sd q h n
        = .ok (noRelevantInfoMsg, []))
    ∧ (∀ (r a : String) q h n,
      PostgresRag.postgres_rag (.ok ()) (fun _ => .ok r) (fun _ _ => .ok [sampleTup])
        (fun _ => .ok a) [] q h n
        = .ok (a.trim, [("/p/f.md".toList, "/p/f.md".toList)]))
    ∧ (∀ (e : Err) rl srch gen sd q h n,
      PostgresRag.postgres_rag (.error e) rl srch gen sd q h n = .error e)
    ∧ (∀ (e : Err) (r : String) gen sd q h,
      RagBASF.document_rag (fun _ => .ok r) (fun _ => .error e) gen sd [] q h = .error e)
    ∧ (∀ (r : String) gen sd fl q h,
      RagBASF.document_rag (fun _ => .ok r) (fun _ => .ok []) gen sd fl q h
        = .ok (noRelevantInfoMsg, []))
    ∧ (∀ (e : Err) (r : String) q h,
      RagBASF.document_rag (fun _ => .ok r) (fun _ => .ok [sampleBHit]) (fun _ => .error e)
        sampleBStore [] q h = .error e)
    ∧ (∀ (r a : String) q h,
      RagBASF.document_rag (fun _ => .ok r) (fun _ => .ok [sampleBHit]) (fun _ => .ok a)
        sampleBStore [] q h = .ok (a.trim, [("f.md", "/shared/f.md")]))
    ∧ (∀ (r a : String) q h,
      RagBASF.document_rag (fun _ => .ok r) (fun _ => .ok [sampleBHit]) (fun _ => .ok a)
        [] [] q h
        = .error "AttributeError: NoneType object has no attribute startswith") := by
  refine ⟨?_, ?_, ?_, ?_, ?_, ?_, ?_, ?_, ?_, ?_, ?_⟩ <;> intros <;> rfl

/-- C2 (counterexample): contrary to the claim that a rephrase failure
falls back to the original user_question, document_rag with a rephrase
step that raises propagates the exception and aborts the pipeline. -/
theorem C2_counterexample :
    RagBASF.document_rag (fun _ => .error "APIConnectionError")
      (fun _ => .ok []) (fun _ => .ok "") [] [] "what is CHA?" []
      = .error "APIConnectionError" := rfl

/-- C2 (amended): a failure of the rephrase step propagates out of the
orchestrator unchanged, for every store, generator, store mapping, filter
dict, question and history; no fallback to the original question occurs. -/
theorem C2_amended :
    ∀ (e : Err) storeQuery gen sd fl q h,
      RagBASF.document_rag (fun _ => .error e) storeQuery gen sd fl q h = .error e := by
  intros; rfl

/-- C3: on an empty document list the postgres generator returns the fixed
no-relevant-information answer without any LLM call, and on an empty or
whitespace-only context block the structured generator returns the fixed
no-context answer with an empty sources list without any LLM call (the
Nat component counts LLM network calls). -/
theorem C3_empty_short_circuit :
    (∀ llm q, PostgresRag.generate_document_response llm q [] = .ok (noRelevantInfoMsg, 0))
    ∧ (∀ llm q hist cb, isBlank cb = true →
        RagGenerator.generate_response_from_context true llm q cb hist
          = ({ answer := "No context available to answer the query.", sources := [] }, 0)) := by
  refine ⟨fun llm q => rfl, ?_⟩
  intro llm q hist cb h
  unfold RagGenerator.generate_response_from_context
  simp [h]

/-- C3 (witness): the short circuit evaluated on a whitespace-only context
block. -/
theorem C3_witness :
    RagGenerator.generate_response_from_context true
      (fun _ => .ok { answer := "x", sources := [] }) "q" (' ' :: '\n' :: []) []
      = ({ answer := "No context available to answer the query.", sources := [] }, 0) :=
  C3_empty_short_circuit.2 (fun _ => .ok { answer := "x", sources := [] }) "q" []
    (' ' :: '\n' :: []) (by decide)

/-- C4 (code behaviour at the failing input): against a context block
whose chunk ids are a, b and c, an LLM reply citing the fabricated chunk
id z is returned unchanged by generate_response_from_context; no
post-processing drops the citation. -/
theorem C4_hallucinated_citation_survives :
    "z" ∉ hitsABC.map hitId
    ∧ isBlank cbABC = false
    ∧ (RagGenerator.generate_response_from_context true
        (fun _ => .ok { answer := "answer text", sources := [⟨"z", "doc.pdf"⟩] })
        "q" cbABC []).1.sources = [⟨"z", "doc.pdf"⟩] := by
  refine ⟨by decide, by decide, by rfl⟩

/-- C5: the source map built by the postgres orchestrator has distinct
keys, its keys are the source paths in order of first occurrence in rank
order, and each key maps to the resolved real path of its first
occurrence. -/
theorem C5_source_map (documents : List PostgresRag.PgDoc) :
    ((PostgresRag.unique_sources documents).map Prod.fst).Nodup
    ∧ (PostgresRag.unique_sources documents).map Prod.fst
        = PostgresRag.firstOccDedup (documents.map PostgresRag.PgDoc.filepath)
    ∧ ∀ k, PostgresRag.assocFind (PostgresRag.unique_sources documents) k
        = (documents.find? (fun d => decide (d.filepath = k))).map PostgresRag.PgDoc.real_path := by
  have hkeys : (PostgresRag.unique_sources documents).map Prod.fst
      = PostgresRag.firstOccDedup (documents.map PostgresRag.PgDoc.filepath) := by
    unfold PostgresRag.unique_sources PostgresRag.firstOccDedup
    have := sourceFold_map_fst documents []
    simpa using this
  refine ⟨?_, hkeys, ?_⟩
  · rw [hkeys]
    exact (firstOccNew_nodup_disjoint (documents.map PostgresRag.PgDoc.filepath) []).1
  · intro k
    unfold PostgresRag.unique_sources
    have := sourceFold_assocFind documents [] k
    simpa [PostgresRag.assocFind] using this

/-- C6 (counterexample): contrary to the claim that a failed retry yields
an empty record sequence, when both the filtered query and the unfiltered
retry raise, retrieve_movies re-raises the failure and returns no list at
all. -/
theorem C6_counterexample :
    (RagRetrieval.retrieve_movies storeBothFail [("rating", .s "PG")]).1 = .error "db down"
    ∧ ∀ ms, (RagRetrieval.retrieve_movies storeBothFail [("rating", .s "PG")]).1 ≠ .ok ms := by
  refine ⟨rfl, ?_⟩
  intro ms h
  exact Except.noConfusion h

/-- C6 (amended): a failure of the filtered query triggers exactly one
retry without the filter, whose outcome (success or exception) is returned
as is; a failure of an unfiltered query propagates; when both the filtered
query and the retry fail the retry's exception propagates out of
retrieve_movies instead of an empty sequence being returned. -/
theorem C6_amended :
    (∀ store w0 (e : Err), store (some w0) = .error e →
      RagRetrieval.queryWithRetry store (some w0) = (store none, [some w0, none]))
    ∧ (∀ store (e : Err), store none = .error e →
      RagRetrieval.queryWithRetry store none = (.error e, [none]))
    ∧ (∀ store fp w0 (e1 e2 : Err),
      RagRetrieval.buildWhereClause fp = some w0 →
      store (some w0) = .error e1 → store none = .error e2 →
      (RagRetrieval.retrieve_movies store fp).1 = .error e2) := by
  refine ⟨?_, ?_, ?_⟩
  · intro store w0 e h
    unfold RagRetrieval.queryWithRetry
    simp [h]
  · intro store e h
    unfold RagRetrieval.queryWithRetry
    simp [h]
  · intro store fp w0 e1 e2 hb h1 h2
    unfold RagRetrieval.retrieve_movies RagRetrieval.queryWithRetry
    simp [hb, h1, h2]
    rfl

/-- C6 (witness): the retry semantics evaluated on concrete store oracles
(filtered failure with successful unfiltered retry, unfiltered failure,
and a doubly failing store). -/
theorem C6_witness :
    RagRetrieval.queryWithRetry storeRetryOk (some wPG) = (.ok [], [some wPG, none])
    ∧ RagRetrieval.queryWithRetry storeBothFail none = (.error "db down", [none])
    ∧ (RagRetrieval.retrieve_movies storeBothFail [("rating", .s "PG")]).1 = .error "db down" :=
  ⟨C6_amended.1 storeRetryOk wPG "bad filter" rfl,
   C6_amended.2.1 storeBothFail "db down" rfl,
   C6_amended.2.2 storeBothFail [("rating", .s "PG")] wPG "db down" "db down" rfl rfl rfl⟩

/-- C7 (counterexample): contrary to the claim that range operators are
mapped to the store's comparison operators for every entry, a range spec
on a field other than release_year is passed through as a raw dict, with
the gt key left unmapped. -/
theorem C7_counterexample :
    RagRetrieval.buildWhereClause [("rating", .d [("gt", 5)])]
      = some (.single ("rating", RagRetrieval.CVal.d [("gt", 5)]))
    ∧ RagRetrieval.buildWhereClause [("rating", .d [("gt", 5)])]
      ≠ some (.single ("rating", RagRetrieval.CVal.mapped "$gt" 5)) := by
  refine ⟨rfl, by decide⟩

/-- C7 (amended): literal entries become bare equality conditions; range
operators gt, lt, gte and lte are mapped to the store operators only for
the release_year field; zero entries send no filter, exactly one condition
is sent bare, and two or more conditions are combined under $and; in
particular the rating=PG plus release_year gt 2015 scenario produces the
AND of an equality and a mapped greater-than condition on two distinct
fields. -/
theorem C7_amended :
    RagRetrieval.buildWhereClause [("rating", .s "PG"), ("release_year", .d [("gt", 2015)])]
      = some (.and [("rating", RagRetrieval.CVal.s "PG"),
                    ("release_year", RagRetrieval.CVal.mapped "$gt" 2015)])
    ∧ RagRetrieval.buildWhereClause [] = none
    ∧ (∀ k s, RagRetrieval.buildWhereClause [(k, .s s)]
        = some (.single (k, RagRetrieval.CVal.s s)))
    ∧ (∀ k n, RagRetrieval.buildWhereClause [(k, .i n)]
        = some (.single (k, RagRetrieval.CVal.i n)))
    ∧ (∀ v, RagRetrieval.buildWhereClause [("release_year", .d [("gt", v)])]
        = some (.single ("release_year", RagRetrieval.CVal.mapped "$gt" v)))
    ∧ (∀ v, RagRetrieval.buildWhereClause [("release_year", .d [("lt", v)])]
        = some (.single ("release_year", RagRetrieval.CVal.mapped "$lt" v)))
    ∧ (∀ v, RagRetrieval.buildWhereClause [("release_year", .d [("gte", v)])]
        = some (.single ("release_year", RagRetrieval.CVal.mapped "$gte" v)))
    ∧ (∀ v, RagRetrieval.buildWhereClause [("release_year", .d [("lte", v)])]
        = some (.single ("release_year", RagRetrieval.CVal.mapped "$lte" v)))
    ∧ (∀ k1 s1 k2 s2, RagRetrieval.buildWhereClause [(k1, .s s1), (k2, .s s2)]
        = some (.and [(k1, RagRetrieval.CVal.s s1), (k2, RagRetrieval.CVal.s s2)])) := by
  refine ⟨by rfl, rfl, ?_, ?_, ?_, ?_, ?_, ?_, ?_⟩ <;> intros <;> rfl

/-- C8: each generator's context block is the concatenation, in record
input order, of one entry per record, and the content excerpt inside an
entry is exactly the first 500 (postgres) or 300 (BASF) code points of the
content followed by an ellipsis marker when the content is longer than the
cap, and the unchanged content with no marker otherwise. -/
theorem C8_truncation :
    (∀ documents : List PostgresRag.PgDoc,
      PostgresRag.pg_doc_block documents
        = (documents.enum.map (fun p => PostgresRag.pgChunkEntry (p.1 + 1) p.2)).flatten)
    ∧ (∀ c : Str, 500 < c.length →
        PostgresRag.pgContentExcerpt c = c.take 500 ++ "...".toList
        ∧ (c.take 500).length = 500)
    ∧ (∀ c : Str, c.length ≤ 500 → PostgresRag.pgContentExcerpt c = c)
    ∧ (∀ documents : List RagBASF.BDoc,
        RagBASF.basf_doc_block documents
          = (documents.enum.map (fun p => RagBASF.basf_chunk_entry (p.1 + 1) p.2)).flatten)
    ∧ (∀ c : Str, 300 < c.length →
        RagBASF.basf_chunk_excerpt c = c.take 300 ++ "...".toList
        ∧ (c.take 300).length = 300)
    ∧ (∀ c : Str, c.length ≤ 300 → RagBASF.basf_chunk_excerpt c = c) := by
  refine ⟨?_, ?_, ?_, ?_, ?_, ?_⟩
  · intro documents
    unfold PostgresRag.pg_doc_block
    have := foldl_append_flatten
      (fun p : Nat × PostgresRag.PgDoc => PostgresRag.pgChunkEntry (p.1 + 1) p.2)
      documents.enum []
    simpa using this
  · intro c h
    refine ⟨?_, ?_⟩
    · unfold PostgresRag.pgContentExcerpt
      rw [if_pos h]
    · rw [List.length_take]
      omega
  · intro c h
    unfold PostgresRag.pgContentExcerpt
    rw [if_neg (by omega), List.append_nil, List.take_of_length_le h]
  · intro documents
    unfold RagBASF.basf_doc_block
    have := foldl_append_flatten
      (fun p : Nat × RagBASF.BDoc => RagBASF.basf_chunk_entry (p.1 + 1) p.2)
      documents.enum []
    simpa using this
  · intro c h
    refine ⟨?_, ?_⟩
    · unfold RagBASF.basf_chunk_excerpt
      rw [if_pos h]
    · rw [List.length_take]
      omega
  · intro c h
    unfold RagBASF.basf_chunk_excerpt
    rw [if_neg (by omega), List.append_nil, List.take_of_length_le h]

/-- C8 (witness): the truncation behaviour evaluated at contents of
length 501, 500, 301 and 300. -/
theorem C8_witness :
    (PostgresRag.pgContentExcerpt (List.replicate 501 'a')
        = (List.replicate 501 'a').take 500 ++ "...".toList
      ∧ ((List.replicate 501 'a').take 500).length = 500)
    ∧ PostgresRag.pgContentExcerpt (List.replicate 500 'b') = List.replicate 500 'b'
    ∧ (RagBASF.basf_chunk_excerpt (List.replicate 301 'c')
        = (List.replicate 301 'c').take 300 ++ "...".toList
      ∧ ((List.replicate 301 'c').take 300).length = 300)
    ∧ RagBASF.basf_chunk_excerpt (List.replicate 300 'd') = List.replicate 300 'd' :=
  ⟨C8_truncation.2.1 (List.replicate 501 'a') (by rw [List.length_replicate]; omega),
   C8_truncation.2.2.1 (List.replicate 500 'b') (by rw [List.length_replicate]),
   C8_truncation.2.2.2.2.1 (List.replicate 301 'c') (by rw [List.length_replicate]; omega),
   C8_truncation.2.2.2.2.2 (List.replicate 300 'd') (by rw [List.length_replicate])⟩

/-- C9 (counterexample): contrary to the claim that empty-content records
are excluded before context assembly in the cited code, the postgres
pipeline keeps a search hit whose content is the empty string: it still
produces a context-block excerpt and a source-map entry. -/
theorem C9_counterexample :
    PostgresRag.retrieve_documents (fun _ _ => .ok [emptyContentTup]) [] "q" 5
      = .ok [pgEmptyDoc]
    ∧ pgEmptyDoc.content = []
    ∧ PostgresRag.unique_sources [pgEmptyDoc] = [("/p/f.md".toList, "/p/f.md".toList)]
    ∧ PostgresRag.pg_doc_block [pgEmptyDoc] ≠ [] := by
  refine ⟨by rfl, rfl, by rfl, by decide⟩

/-- C9 (amended): in retrieve_and_format_context, hits whose content is
empty, whitespace-only or not a string (as well as malformed hits)
contribute nothing to the context block and nothing to the source map:
the context block is exactly the concatenated excerpts of the valid hits
(hitExcerpt is empty on all others), the source map is exactly the
first-occurrence fold of the valid hits' path pairs, and every source-map
entry comes from a hit with non-blank string content. The postgres
generator and orchestrator perform no such exclusion. -/
theorem C9_amended :
    ∀ hits cb srcs, RagRetriever.processHits hits = .ok (cb, srcs) →
      cb = (hits.enum.map (fun p => RagRetriever.hitExcerpt p.1 p.2)).flatten
      ∧ srcs = (hits.enum.filterMap (fun p => RagRetriever.hitSrcPair p.2)).foldl
          (fun acc q => RagRetriever.insertSrc acc q.1 q.2) []
      ∧ ∀ kv ∈ srcs, ∃ hit, hit ∈ hits ∧ RagRetriever.hitSrcPair hit = some kv := by
  intro hits cb srcs h
  have hs := processGo_ok_spec hits.enum [] [] cb srcs h
  refine ⟨by simpa using hs.1, hs.2, ?_⟩
  intro kv hkv
  rcases insertFold_mem _ [] kv (hs.2 ▸ hkv) with hin | hin
  · simp at hin
  · rcases List.mem_filterMap.mp hin with ⟨p, hp, hpair⟩
    refine ⟨p.2, ?_, hpair⟩
    have hmem : p.2 ∈ hits.enum.map Prod.snd := List.mem_map_of_mem Prod.snd hp
    rwa [List.enum_map_snd] at hmem

/-- C9 (witness): the exclusion evaluated on a mixed hit list containing a
good hit, a blank-content hit, a malformed hit, and a repeated source
path. -/
theorem C9_witness :
    demoOut.1 = (demoHits.enum.map (fun p => RagRetriever.hitExcerpt p.1 p.2)).flatten
    ∧ demoOut.2 = (demoHits.enum.filterMap (fun p => RagRetriever.hitSrcPair p.2)).foldl
        (fun acc q => RagRetriever.insertSrc acc q.1 q.2) [] := by
  have := C9_amended demoHits demoOut.1 demoOut.2 (by rfl)
  exact ⟨this.1, this.2.1⟩

/-- C10: after the pipeline becomes available, a raised connection
failure, a raised search failure, or a raised processing failure all make
retrieve_and_format_context return exactly the empty context block and
empty source map (any partially assembled state is discarded), and the
finally block closes the session exactly when one is present and active
(the Bool component records the close call). -/
theorem C10_exception_cleanup :
    (∀ (e : Err) search,
      RagRetriever.retrieve_and_format_context true (.error e) search = (([], []), false))
    ∧ (∀ (active : Bool) (e : Err),
      RagRetriever.retrieve_and_format_context true (.ok (some active, true)) (.error e)
        = (([], []), active))
    ∧ (∀ hits (e : Err), RagRetriever.processHits hits = .error e →
      RagRetriever.retrieve_and_format_context true (.ok (some true, true)) (.ok hits)
        = (([], []), true)) := by
  refine ⟨fun e search => rfl, fun active e => rfl, ?_⟩
  intro hits e h
  unfold RagRetriever.retrieve_and_format_context
  simp [h]

/-- C10 (witness): the discard evaluated on a hit list whose first hit is
processed successfully before the second raises in the score format: the
partial context block is discarded and the active session closed. -/
theorem C10_witness :
    RagRetriever.processHits [goodHitA, badFusedHit]
      = .error "unsupported format string passed to NoneType.__format__"
    ∧ RagRetriever.retrieve_and_format_context true (.ok (some true, true))
        (.ok [goodHitA, badFusedHit]) = (([], []), true) :=
  ⟨by rfl,
   C10_exception_cleanup.2.2 [goodHitA, badFusedHit]
     "unsupported format string passed to NoneType.__format__" (by rfl)⟩
